import Mathlib

/-!
Verification of `salt/modules/testinframod.py`: a shallow embedding of the
resource-verification dispatcher (`_run_tests`), the member resolver
(`_get_method_result`) and the assertion evaluator (`_apply_assertion`),
together with theorems settling the specification's claims.

Modelling conventions:
* Python values are the inductive `PyVal` (None, bool, int, str, dict with
  string keys); a Python dict is an association list with distinct keys.
* Python exceptions are the inductive `PyErr`; a Python function that may
  raise is embedded as returning `Except PyErr _`.
* External collaborators (the testinfra backend, a resource module class and
  its instances) are embedded as explicit data (`TIModule`, `Instance`)
  passed to the dispatcher; `Option TIModule` with value `none` models
  `testinfra.get_backend(...).get_module(...)` raising `NotImplementedError`.
* Messages of Python built-in exceptions (`TypeError`, `KeyError`) are
  modelled approximately; the exception's type and the module's own message
  strings are modelled exactly.
-/

/-- A Python value as used by the module: `None`, booleans, integers,
strings, and string-keyed dictionaries. -/
inductive PyVal where
  | none : PyVal
  | bool (b : Bool) : PyVal
  | int (n : Int) : PyVal
  | str (s : String) : PyVal
  | dict (entries : List (String × PyVal)) : PyVal

/-- Python exceptions raised by the module or by built-ins it calls.
`invalidArgument` embeds the module's own `InvalidArgumentError`. -/
inductive PyErr where
  | invalidArgument (msg : String) : PyErr
  | typeError (msg : String) : PyErr
  | keyError (key : String) : PyErr
  | notImplementedError : PyErr
deriving DecidableEq

/-- Python `repr()` restricted to `PyVal`. -/
def pyRepr : PyVal → String
  | .none => "None"
  | .bool true => "True"
  | .bool false => "False"
  | .int n => toString n
  | .str s => "\x27" ++ s ++ "\x27"
  | .dict es => "\x7b" ++ pyReprEntries es ++ "\x7d"
where
  /-- `repr()` of the comma-separated entries of a dict. -/
  pyReprEntries : List (String × PyVal) → String
  | [] => ""
  | [(k, v)] => "\x27" ++ k ++ "\x27: " ++ pyRepr v
  | (k, v) :: e :: es => "\x27" ++ k ++ "\x27: " ++ pyRepr v ++ ", " ++ pyReprEntries (e :: es)

/-- Python `str()` restricted to `PyVal` (differs from `repr` only on
strings, which print without quotes). -/
def pyStr : PyVal → String
  | .str s => s
  | v => pyRepr v

/-- Python truthiness: `not v` is `true` exactly on these values. -/
def pyFalsy : PyVal → Bool
  | .none => true
  | .bool b => !b
  | .int n => n == 0
  | .str s => s == ""
  | .dict es => es.isEmpty

/-- Python `is` (object identity) restricted to the values the module
compares.  `True`, `False` and `None` are singletons, so identity on them is
value equality; identity between values of different types is false; identity
of equal ints/strings/dicts is not guaranteed by Python and is modelled as
false (no claim depends on it). -/
def pyIs : PyVal → PyVal → Bool
  | .bool a, .bool b => a == b
  | .none, .none => true
  | _, _ => false

mutual

/-- Python `==` on `PyVal`: booleans compare equal to the ints 0/1; other
comparisons are structural (dict equality is modelled as entry-list equality,
adequate because dicts in this development have a fixed entry order). -/
def pyEq : PyVal → PyVal → Bool
  | .none, .none => true
  | .bool x, .bool y => x == y
  | .bool x, .int n => (if x then (1 : Int) else 0) == n
  | .int n, .bool x => n == (if x then (1 : Int) else 0)
  | .int n, .int m => n == m
  | .str s, .str t => s == t
  | .dict a, .dict b => pyEqEntries a b
  | _, _ => false

/-- Python `==` on the entry lists of two dicts (pointwise, order
sensitive). -/
def pyEqEntries : List (String × PyVal) → List (String × PyVal) → Bool
  | [], [] => true
  | (k, v) :: a, (l, w) :: b => k == l && pyEq v w && pyEqEntries a b
  | _, _ => false

end

/-- The name of a Python value's type, as in `TypeError` messages. -/
def pyTypeName : PyVal → String
  | .none => "NoneType"
  | .bool _ => "bool"
  | .int _ => "int"
  | .str _ => "str"
  | .dict _ => "dict"

/-- Python dict lookup `d[k]` on the association-list model: first entry
with the given key, if any. -/
def dictGet : List (String × PyVal) → String → Option PyVal
  | [], _ => Option.none
  | (k, v) :: rest, n => if k == n then some v else dictGet rest n

/-- Ordering of two Python values (`<`, `<=`, `>`, `>=`): numbers (with bools
as 0/1) and strings are ordered; any other pair raises `TypeError`. -/
def pyCmp (a b : PyVal) : Except PyErr Ordering :=
  match a, b with
  | .bool x, .bool y => .ok (compare (if x then (1 : Int) else 0) (if y then 1 else 0))
  | .bool x, .int m => .ok (compare (if x then (1 : Int) else 0) m)
  | .int n, .bool y => .ok (compare n (if y then 1 else 0))
  | .int n, .int m => .ok (compare n m)
  | .str s, .str t => .ok (if s < t then .lt else if s == t then .eq else .gt)
  | x, y =>
      .error (.typeError ("unorderable types: " ++ pyTypeName x ++ ", " ++ pyTypeName y))

/-- Substring test used to model Python `in` on strings and `re.search` on
literal patterns. -/
def strContainsSub (s pat : String) : Bool :=
  if pat == "" then true else (s.splitOn pat).length > 1

/-- A comparator from the `operator` module as applied by
`_apply_assertion`: a binary function on Python values that may raise. -/
abbrev Comparator := PyVal → PyVal → Except PyErr PyVal

/-- `operator.eq`. -/
def opEq : Comparator := fun a b => .ok (.bool (pyEq a b))

/-- `operator.ne`. -/
def opNe : Comparator := fun a b => .ok (.bool (!pyEq a b))

/-- `operator.lt`. -/
def opLt : Comparator := fun a b => (pyCmp a b).map fun o => .bool (o == Ordering.lt)

/-- `operator.le`. -/
def opLe : Comparator := fun a b => (pyCmp a b).map fun o => .bool (o != Ordering.gt)

/-- `operator.gt`. -/
def opGt : Comparator := fun a b => (pyCmp a b).map fun o => .bool (o == Ordering.gt)

/-- `operator.ge`. -/
def opGe : Comparator := fun a b => (pyCmp a b).map fun o => .bool (o != Ordering.lt)

/-- `operator.contains` (`b in a`): substring on strings, key membership on
dicts, `TypeError` otherwise. -/
def opContains : Comparator := fun a b =>
  match a with
  | .str s =>
      match b with
      | .str t => .ok (.bool (strContainsSub s t))
      | _ => .error (.typeError "in <string> requires string as left operand")
  | .dict es => .ok (.bool (match b with | .str k => (dictGet es k).isSome | _ => false))
  | v => .error (.typeError ("argument of type \x27" ++ pyTypeName v ++ "\x27 is not iterable"))

/-- `operator.is_`. -/
def opIs : Comparator := fun a b => .ok (.bool (pyIs a b))

/-- `operator.is_not`. -/
def opIsNot : Comparator := fun a b => .ok (.bool (!pyIs a b))

/-- `getattr(operator, name)` restricted to the comparison vocabulary the
module documents ("as defined in the operator module, e.g. eq, ge, etc.");
every other name is modelled as following the `AttributeError` path of
`_apply_assertion`. -/
def operatorLookup : String → Option Comparator
  | "eq" => some opEq
  | "ne" => some opNe
  | "lt" => some opLt
  | "le" => some opLe
  | "gt" => some opGt
  | "ge" => some opGe
  | "contains" => some opContains
  | "is_" => some opIs
  | "is_not" => some opIsNot
  | _ => Option.none

/-- `re.search(pattern, string)`: modelled as a literal-substring search
returning a truthy match object or `None` (no claim exercises regular
expression syntax); non-string arguments raise `TypeError` as in Python. -/
def reSearch (pattern subject : PyVal) : Except PyErr PyVal :=
  match pattern, subject with
  | .str p, .str s =>
      .ok (if strContainsSub s p then .str "<re.Match object>" else .none)
  | _, _ => .error (.typeError "expected string or bytes-like object")

/-- `_apply_assertion(expected, result)`: boolean expectations use identity
(`result is expected`); dict expectations resolve `expected["comparison"]`
through the `operator` module (falling back to `re.search` for `"search"`,
and raising `InvalidArgumentError` for an unknown name), then return
`comparison(expected["expected"], result)`.  A missing `"comparison"` key
raises `KeyError` (logged and re-raised); a missing `"expected"` key raises
`KeyError` outside any handler; any other expectation type raises
`TypeError`. -/
def apply_assertion (expected result : PyVal) : Except PyErr PyVal :=
  match expected with
  | .bool b => .ok (.bool (pyIs result (.bool b)))
  | .dict d =>
      match dictGet d "comparison" with
      | Option.none => .error (.keyError "comparison")
      | some cname =>
          match cname with
          | .str s =>
              match operatorLookup s with
              | some comp =>
                  match dictGet d "expected" with
                  | Option.none => .error (.keyError "expected")
                  | some e => comp e result
              | Option.none =>
                  if s == "search" then
                    match dictGet d "expected" with
                    | Option.none => .error (.keyError "expected")
                    | some e => reSearch e result
                  else
                    .error (.invalidArgument
                      ("Comparison " ++ s ++ " is not a valid selection."))
          | _ => .error (.typeError "attribute name must be string")
  | v =>
      .error (.typeError
        ("Expected bool or dict but received <class \x27" ++ pyTypeName v ++ "\x27>"))

/-- An attribute of a testinfra module class or of one of its instances, as
seen by `getattr`:
* `propObj value` — a `property` object whose getter, applied to the
  invocation's instance, yields `value`;
* `funcObj f` — a function/method; calling it on the instance with one
  argument `a` yields `f a`;
* `plainVal v` — any other (non-callable, non-property) attribute. -/
inductive Attr where
  | propObj (value : PyVal) : Attr
  | funcObj (f : PyVal → PyVal) : Attr
  | plainVal (v : PyVal) : Attr

/-- The attribute dictionary of a constructed resource instance. -/
abbrev Instance := List (String × Attr)

/-- A resolved testinfra module class, as the dispatcher sees it:
its printable representation (used in error messages), its class attributes,
its constructor parameter names (`inspect.signature`), and its constructor
(`construct` for the `len(parameters) > 1` call `mod(name, **additional_args)`,
`construct0` for the parameterless call `mod()`), which may raise
`TypeError` (carried as the error message). -/
structure TIModule where
  reprName : String
  attrs : List (String × Attr)
  params : List String
  construct : String → List (String × PyVal) → Except String Instance
  construct0 : Except String Instance

/-- First attribute with the given name in an attribute list. -/
def lookupAttr : List (String × Attr) → String → Option Attr
  | [], _ => Option.none
  | (k, a) :: rest, n => if k == n then some a else lookupAttr rest n

/-- `getattr(module_instance, n)` under Python's attribute protocol: a class
`property` (data descriptor) is invoked and wins over the instance dict; the
instance dict wins over other class attributes; a class function reached
through the instance is its bound method. -/
def instanceGetattr (mod : TIModule) (inst : Instance) (n : String) : Option Attr :=
  match lookupAttr mod.attrs n with
  | some (.propObj v) => some (.plainVal v)
  | some (.funcObj f) =>
      match lookupAttr inst n with
      | some a => some a
      | Option.none => some (.funcObj f)
  | some (.plainVal v) =>
      match lookupAttr inst n with
      | some a => some a
      | Option.none => some (.plainVal v)
  | Option.none => lookupAttr inst n

/-- Message of the `InvalidArgumentError` raised when a member exists on
neither the module class nor the instance. -/
def unknownMemberMsg (mod : TIModule) (n : String) : String :=
  "The " ++ mod.reprName ++ " module does not have any property or method named " ++ n

/-- The member-resolution prefix of `_get_method_result`: look the name up on
the module class first, only on `AttributeError` fall back to the instance,
and raise `InvalidArgumentError` when both lookups fail. -/
def methodObj (mod : TIModule) (inst : Instance) (method_name : String) :
    Except PyErr Attr :=
  match lookupAttr mod.attrs method_name with
  | some a => .ok a
  | Option.none =>
      match instanceGetattr mod inst method_name with
      | some a => .ok a
      | Option.none => .error (.invalidArgument (unknownMemberMsg mod method_name))

/-- The `TypeError` raised by Python for `v["parameter"]` on a
non-subscriptable value. -/
def subscriptErr (v : PyVal) : PyErr :=
  match v with
  | .str _ => .typeError "string indices must be integers"
  | v => .typeError ("\x27" ++ pyTypeName v ++ "\x27 object is not subscriptable")

/-- `_get_method_result(module_, module_instance, method_name, method_arg)`:
resolve the member (class first, then instance); a `property` is read through
its getter; a function/method requires a truthy `method_arg`, is re-fetched
from the instance (an `AttributeError` there is converted to
`InvalidArgumentError`), and is called with `method_arg["parameter"]`, where
a missing `"parameter"` key is converted to `InvalidArgumentError` and a
non-subscriptable `method_arg` raises an uncaught `TypeError`; any other
attribute is returned as-is. -/
def get_method_result (mod : TIModule) (inst : Instance) (method_name : String)
    (method_arg : PyVal) : Except PyErr PyVal :=
  match methodObj mod inst method_name with
  | .error e => .error e
  | .ok (.propObj v) => .ok v
  | .ok (.funcObj _) =>
      if pyFalsy method_arg then
        .error (.invalidArgument
          (method_name ++ " is a method of the " ++ mod.reprName ++
            " module. An argument dict is required."))
      else
        match instanceGetattr mod inst method_name with
        | Option.none => .error (.invalidArgument (unknownMemberMsg mod method_name))
        | some callee =>
            match method_arg with
            | .dict d =>
                match dictGet d "parameter" with
                | some p =>
                    match callee with
                    | .funcObj f => .ok (f p)
                    | .propObj _ => .error (.typeError "\x27property\x27 object is not callable")
                    | .plainVal v =>
                        .error (.typeError
                          ("\x27" ++ pyTypeName v ++ "\x27 object is not callable"))
                | Option.none =>
                    .error (.invalidArgument
                      ("The argument dict supplied has no key named \"parameter\": " ++
                        pyStr method_arg))
            | v => .error (subscriptErr v)
  | .ok (.plainVal v) => .ok v

/-- The fail message appended by `_run_tests` for one failed assertion. -/
def failMsg (module_name name meth : String) (arg result : PyVal) : String :=
  "Assertion failed: " ++ module_name ++ " " ++ name ++ " " ++ meth ++ " " ++
    pyStr arg ++ ". Actual result: " ++ pyStr result

/-- The pass message appended by `_run_tests` for one passed assertion
(note the double space after the colon, as in the source). -/
def passMsg (module_name name meth : String) (arg result : PyVal) : String :=
  "Assertion passed:  " ++ module_name ++ " " ++ name ++ " " ++ meth ++ " " ++
    pyStr arg ++ ". Actual result: " ++ pyStr result

/-- The check loop of `_run_tests`: for each remaining `(meth, arg)` pair run
`_get_method_result` and `_apply_assertion` (any exception propagates,
aborting the loop), then append one pass or fail message and clear the
success flag on failure. -/
def runChecks (mod : TIModule) (inst : Instance) (module_name name : String) :
    List (String × PyVal) → Bool → List String → List String →
      Except PyErr (Bool × List String × List String)
  | [], success, pass_msgs, fail_msgs => .ok (success, pass_msgs, fail_msgs)
  | (meth, arg) :: rest, success, pass_msgs, fail_msgs =>
      match get_method_result mod inst meth arg with
      | .error e => .error e
      | .ok result =>
          match apply_assertion arg result with
          | .error e => .error e
          | .ok assertion_result =>
              if pyFalsy assertion_result then
                runChecks mod inst module_name name rest false pass_msgs
                  (fail_msgs ++ [failMsg module_name name meth arg result])
              else
                runChecks mod inst module_name name rest success
                  (pass_msgs ++ [passMsg module_name name meth arg result]) fail_msgs

/-- The constructor-argument binding of `_run_tests` (lines 229-231): every
declared check whose name is also a constructor parameter is popped into
`additional_args`. -/
def additionalArgs (params : List String) (methods : List (String × PyVal)) :
    List (String × PyVal) :=
  methods.filter fun kv => params.contains kv.fst

/-- The declared checks remaining after constructor-argument binding (the
`methods` dict after the `pop` loop, declaration order preserved). -/
def remainingMethods (params : List String) (methods : List (String × PyVal)) :
    List (String × PyVal) :=
  methods.filter fun kv => !params.contains kv.fst

/-- `s.startswith("_")`: whether the first character is an underscore. -/
def startsWithUnderscore (s : String) : Bool :=
  match s.data with
  | [] => false
  | c :: _ => c == '_'

/-- The reserved-prefix filter of `_run_tests` (lines 242-244): drop every
remaining check whose name starts with an underscore. -/
def validMethods (methods : List (String × PyVal)) : List (String × PyVal) :=
  methods.filter fun kv => !startsWithUnderscore kv.fst

/-- Instantiation step of `_run_tests`: `mod(name, **additional_args)` when
the constructor takes more than one parameter, `mod()` otherwise; a
`TypeError` message is returned as the error. -/
def instantiate (mod : TIModule) (name : String)
    (methods : List (String × PyVal)) : Except String Instance :=
  if mod.params.length > 1 then mod.construct name (additionalArgs mod.params methods)
  else mod.construct0

/-- `_run_tests(name, **methods)`, the generated verification entry point.
`getModule` is the outcome of `_get_module(module_name)`: `none` models the
external backend raising `NotImplementedError` (caught: the invocation
returns `(False, [], [])`); a construction `TypeError` is logged and
re-raised; otherwise the underscore-filtered remaining checks are evaluated
in declaration order and the report is returned. -/
def run_tests (getModule : Option TIModule) (module_name name : String)
    (methods : List (String × PyVal)) :
    Except PyErr (Bool × List String × List String) :=
  match getModule with
  | Option.none => .ok (false, [], [])
  | some mod =>
      match instantiate mod name methods with
      | .error msg => .error (.typeError msg)
      | .ok modinstance =>
          runChecks mod modinstance module_name name
            (validMethods (remainingMethods mod.params methods)) true [] []

/-- Outcome of evaluating one check: the value `_get_method_result` then
`_apply_assertion` produce, or the first exception raised. -/
def checkEval (mod : TIModule) (inst : Instance) (c : String × PyVal) :
    Except PyErr PyVal :=
  match get_method_result mod inst c.fst c.snd with
  | .error e => .error e
  | .ok result => apply_assertion c.snd result

/-- Whether evaluating one check raises no exception. -/
def checkOk (mod : TIModule) (inst : Instance) (c : String × PyVal) : Bool :=
  match checkEval mod inst c with
  | .ok _ => true
  | .error _ => false

/-- Whether one check evaluates without exception to a truthy assertion
result (i.e. is recorded as passed). -/
def checkPassed (mod : TIModule) (inst : Instance) (c : String × PyVal) : Bool :=
  match checkEval mod inst c with
  | .ok ar => !pyFalsy ar
  | .error _ => false

/-- The actual result `_get_method_result` returns for one check (`None`
when it raises; only used under the hypothesis that it does not). -/
def checkActual (mod : TIModule) (inst : Instance) (c : String × PyVal) : PyVal :=
  match get_method_result mod inst c.fst c.snd with
  | .ok result => result
  | .error _ => PyVal.none

/-- The pass message of one check, as a function of the check. -/
def passMsgOf (mod : TIModule) (inst : Instance) (module_name name : String)
    (c : String × PyVal) : String :=
  passMsg module_name name c.fst c.snd (checkActual mod inst c)

/-- The fail message of one check, as a function of the check. -/
def failMsgOf (mod : TIModule) (inst : Instance) (module_name name : String)
    (c : String × PyVal) : String :=
  failMsg module_name name c.fst c.snd (checkActual mod inst c)

/-- A concrete resolved module in the shape of testinfra's `Package` class:
two zero-argument properties, a single-parameter constructor. -/
def pkgMod : TIModule where
  reprName := "<class \x27testinfra.modules.package.Package\x27>"
  attrs := [("is_installed", .propObj (.bool true)),
            ("version", .propObj (.str "2.7.9-1"))]
  params := ["name"]
  construct := fun _ _ => .ok []
  construct0 := .ok []

/-- A concrete resolved module in the shape of testinfra's `File` class: a
one-argument method `contains` that reports the file contains the requested
string. -/
def fileMod : TIModule where
  reprName := "<class \x27testinfra.modules.file.File\x27>"
  attrs := [("contains", .funcObj fun _ => .bool true)]
  params := ["name"]
  construct := fun _ _ => .ok []
  construct0 := .ok []

/-- A concrete resolved module whose constructor raises `TypeError` (arity
mismatch). -/
def badCtorMod : TIModule where
  reprName := "<class \x27testinfra.modules.service.Service\x27>"
  attrs := []
  params := ["name", "extra"]
  construct := fun _ _ =>
    .error "__init__() missing 1 required positional argument: \x27extra\x27"
  construct0 := .error "unreached"

/-- A module class with a property shadowed by an instance attribute of the
same name, used to observe the class-before-instance resolution order. -/
def shadowMod : TIModule where
  reprName := "<class \x27testinfra.modules.socket.Socket\x27>"
  attrs := [("is_listening", .propObj (.bool true))]
  params := ["name"]
  construct := fun _ _ => .ok []
  construct0 := .ok []

/-- An instance of `shadowMod` that shadows `is_listening` and carries a
plain instance attribute `backlog`. -/
def shadowInst : Instance :=
  [("is_listening", .plainVal (.bool false)), ("backlog", .plainVal (.int 128))]

/-- If the check loop returns a report, every listed check evaluated without
exception, the final success flag is the accumulator conjoined with all the
checks' passed flags, and the message lists are the accumulators extended by
one message per check, pass messages for passing checks and fail messages
for failing checks, in list order. -/
theorem runChecks_ok_spec (mod : TIModule) (inst : Instance) (mn n : String) :
    ∀ (cs : List (String × PyVal)) (s0 : Bool) (ps0 fs0 : List String)
      (s : Bool) (ps fs : List String),
      runChecks mod inst mn n cs s0 ps0 fs0 = .ok (s, ps, fs) →
      (∀ c ∈ cs, checkOk mod inst c = true) ∧
      s = (s0 && cs.all (checkPassed mod inst)) ∧
      ps = ps0 ++ (cs.filter (checkPassed mod inst)).map (passMsgOf mod inst mn n) ∧
      fs = fs0 ++ (cs.filter fun c => !checkPassed mod inst c).map (failMsgOf mod inst mn n) := by
  intro cs
  induction cs with
  | nil =>
      intro s0 ps0 fs0 s ps fs h
      simp only [runChecks, Except.ok.injEq, Prod.mk.injEq] at h
      obtain ⟨h1, h2, h3⟩ := h
      subst h1 h2 h3
      simp
  | cons c rest ih =>
      intro s0 ps0 fs0 s ps fs h
      obtain ⟨meth, arg⟩ := c
      simp only [runChecks] at h
      split at h
      next e hgr => simp at h
      next result hgr =>
        split at h
        next e ha => simp at h
        next ar ha =>
          have hok : checkOk mod inst (meth, arg) = true := by
            simp [checkOk, checkEval, hgr, ha]
          have hpass : checkPassed mod inst (meth, arg) = !pyFalsy ar := by
            simp [checkPassed, checkEval, hgr, ha]
          have hact : checkActual mod inst (meth, arg) = result := by
            simp [checkActual, hgr]
          split at h
          next hf =>
            obtain ⟨hoks, hs, hps, hfs⟩ := ih false ps0 _ s ps fs h
            refine ⟨?_, ?_, ?_, ?_⟩
            · intro c hc
              rcases List.mem_cons.mp hc with hc | hc
              · subst hc; exact hok
              · exact hoks c hc
            · rw [hs]; simp [List.all_cons, hpass, hf]
            · rw [hps]; simp [List.filter_cons, hpass, hf]
            · rw [hfs]
              simp [List.filter_cons, hpass, hf, failMsgOf, hact, List.append_assoc]
          next hf =>
            have hf' : pyFalsy ar = false := by
              cases hfe : pyFalsy ar
              · rfl
              · exact absurd hfe hf
            obtain ⟨hoks, hs, hps, hfs⟩ := ih s0 _ fs0 s ps fs h
            refine ⟨?_, ?_, ?_, ?_⟩
            · intro c hc
              rcases List.mem_cons.mp hc with hc | hc
              · subst hc; exact hok
              · exact hoks c hc
            · rw [hs]; simp [List.all_cons, hpass, hf']
            · rw [hps]
              simp [List.filter_cons, hpass, hf', passMsgOf, hact, List.append_assoc]
            · rw [hfs]; simp [List.filter_cons, hpass, hf']

/-- If every check before some check `(meth, arg)` evaluates without
exception and evaluating `(meth, arg)` raises `e`, the check loop raises `e`
(whatever report was accumulated so far is discarded and the checks after
`(meth, arg)` are never evaluated). -/
theorem runChecks_error_spec (mod : TIModule) (inst : Instance) (mn n : String)
    (meth : String) (arg : PyVal) (e : PyErr) (post : List (String × PyVal)) :
    ∀ (pre : List (String × PyVal)) (s0 : Bool) (ps0 fs0 : List String),
      (∀ c ∈ pre, checkOk mod inst c = true) →
      checkEval mod inst (meth, arg) = .error e →
      runChecks mod inst mn n (pre ++ (meth, arg) :: post) s0 ps0 fs0 = .error e := by
  intro pre
  induction pre with
  | nil =>
      intro s0 ps0 fs0 _ herr
      simp only [checkEval] at herr
      simp only [List.nil_append, runChecks]
      cases hgr : get_method_result mod inst meth arg with
      | error e2 =>
          rw [hgr] at herr
          simp only [Except.error.injEq] at herr
          subst herr
          rfl
      | ok result =>
          rw [hgr] at herr
          simp only at herr
          simp only [herr]
  | cons c pre' ih =>
      intro s0 ps0 fs0 hpre herr
      obtain ⟨m1, a1⟩ := c
      have hc : checkOk mod inst (m1, a1) = true := hpre _ (List.mem_cons_self _ _)
      simp only [checkOk] at hc
      have hpre' : ∀ c ∈ pre', checkOk mod inst c = true := fun c hmem =>
        hpre c (List.mem_cons_of_mem _ hmem)
      simp only [List.cons_append, runChecks]
      cases hgr : get_method_result mod inst m1 a1 with
      | error e2 =>
          rw [show checkEval mod inst (m1, a1) = .error e2 by
            simp [checkEval, hgr]] at hc
          simp at hc
      | ok result =>
          have hch : checkEval mod inst (m1, a1) = apply_assertion a1 result := by
            simp [checkEval, hgr]
          cases ha : apply_assertion a1 result with
          | error e2 => rw [hch, ha] at hc; simp at hc
          | ok ar =>
              simp only [ha]
              cases hf : pyFalsy ar with
              | true => simp only [if_true]; exact ih false ps0 _ hpre' herr
              | false =>
                  simp only [Bool.false_eq_true, if_false]
                  exact ih s0 _ fs0 hpre' herr

/-- Auxiliary: a filter and its complement split a list's length. -/
theorem lengthFilterSplit {α : Type} (p : α → Bool) (l : List α) :
    (l.filter p).length + (l.filter fun a => !p a).length = l.length := by
  induction l with
  | nil => rfl
  | cons a l ih =>
      cases h : p a <;> simp [List.filter_cons, h] <;> omega

/-- C2: for every boolean expectation `b` and actual result `r`,
`_apply_assertion` returns `result is expected`, which is true exactly when
`r` is the very boolean `b` (identity, not value equality); in particular the
non-boolean actual results `1`, `None` and `"yes"` all fail against a
boolean expectation. -/
theorem C2_bool_expectation_identity :
    (∀ (b : Bool) (r : PyVal),
        apply_assertion (.bool b) r = .ok (.bool (pyIs r (.bool b)))) ∧
    (∀ (b : Bool) (r : PyVal), pyIs r (.bool b) = true ↔ r = .bool b) ∧
    apply_assertion (.bool true) (.int 1) = .ok (.bool false) ∧
    apply_assertion (.bool false) .none = .ok (.bool false) ∧
    apply_assertion (.bool true) (.str "yes") = .ok (.bool false) := by
  refine ⟨fun b r => rfl, fun b r => ?_, rfl, rfl, rfl⟩
  cases r <;> simp [pyIs]

/-- C2 witness: the general clauses evaluated at the boolean `true` and the
actual results `True` and `1`. -/
theorem C2_bool_expectation_identity_witness :
    apply_assertion (.bool true) (.bool true) =
      .ok (.bool (pyIs (.bool true) (.bool true))) ∧
    (pyIs (.bool true) (.bool true) = true ↔ PyVal.bool true = .bool true) ∧
    (pyIs (.int 1) (.bool true) = true ↔ PyVal.int 1 = .bool true) :=
  ⟨C2_bool_expectation_identity.1 true (.bool true),
   C2_bool_expectation_identity.2.1 true (.bool true),
   C2_bool_expectation_identity.2.1 true (.int 1)⟩

/-- C3: a structured expectation resolves its `comparison` name through the
operator registry and applies the comparator as
`comparison(expected["expected"], result)` — expected first, actual second;
consequently `eq` with expected `"2.7.9-1"` passes against actual
`"2.7.9-1"` and fails against `"3.0.0"`. -/
theorem C3_comparator_argument_order (d : List (String × PyVal))
    (r e : PyVal) (s : String) (comp : Comparator)
    (h1 : dictGet d "comparison" = some (.str s))
    (h2 : operatorLookup s = some comp)
    (h3 : dictGet d "expected" = some e) :
    apply_assertion (.dict d) r = comp e r ∧
    apply_assertion
      (.dict [("expected", .str "2.7.9-1"), ("comparison", .str "eq")])
      (.str "2.7.9-1") = .ok (.bool true) ∧
    apply_assertion
      (.dict [("expected", .str "2.7.9-1"), ("comparison", .str "eq")])
      (.str "3.0.0") = .ok (.bool false) := by
  refine ⟨?_, rfl, rfl⟩
  simp [apply_assertion, h1, h2, h3]

/-- C3 witness: the eq comparator applied to the version dict. -/
theorem C3_comparator_argument_order_witness :
    apply_assertion
      (.dict [("expected", .str "2.7.9-1"), ("comparison", .str "eq")])
      (.str "2.7.9-1") = opEq (.str "2.7.9-1") (.str "2.7.9-1") :=
  (C3_comparator_argument_order
    [("expected", .str "2.7.9-1"), ("comparison", .str "eq")]
    (.str "2.7.9-1") (.str "2.7.9-1") "eq" opEq rfl rfl rfl).1

/-- C4: when the backend raises `NotImplementedError` for the resource type
(modelled by `getModule = none`), the entry point catches it and returns
`success = false` with both message sequences empty; no error reaches the
caller. -/
theorem C4_unsupported_resource (module_name name : String)
    (methods : List (String × PyVal)) :
    run_tests Option.none module_name name methods = .ok (false, [], []) := rfl

/-- C5: when instantiating the resource raises `TypeError`, the entry point
re-raises it to the caller: no report, no pass or fail messages, no checks
evaluated. -/
theorem C5_construction_error_propagates (mod : TIModule) (mn n : String)
    (methods : List (String × PyVal)) (msg : String)
    (h : instantiate mod n methods = .error msg) :
    run_tests (some mod) mn n methods = .error (.typeError msg) := by
  simp [run_tests, h]

/-- C5 witness: an arity-mismatched constructor propagates its `TypeError`
out of the entry point. -/
theorem C5_construction_error_propagates_witness :
    run_tests (some badCtorMod) "service" "salt-minion" [] =
      .error (.typeError
        "__init__() missing 1 required positional argument: \x27extra\x27") :=
  C5_construction_error_propagates badCtorMod "service" "salt-minion" [] _ rfl

/-- C1 counterexample: two declared checks, the second naming an unknown
member. The claim says the per-check failure is caught, recorded as a failed
assertion, and that the remaining checks still run with no error leaving the
entry point; instead the invocation raises `InvalidArgumentError`, the first
check's pass message is discarded and nothing is recorded. -/
theorem C1_counterexample :
    run_tests (some pkgMod) "package" "salt-minion"
      [("is_installed", .bool true), ("bogus_attr", .bool true)] =
    .error (.invalidArgument
      "The <class \x27testinfra.modules.package.Package\x27> module does not have any property or method named bogus_attr") := by
  rfl

/-- C1 (amended): a per-check failure (unknown member, missing argument,
invalid comparator, invalid expectation type) raised while evaluating one
declared check propagates out of the entry point as a raised error, aborting
evaluation of the remaining declared checks; it is not recorded as a failed
assertion and no report is returned. -/
theorem C1_per_check_error_propagates (mod : TIModule) (inst : Instance)
    (mn n : String) (methods pre post : List (String × PyVal))
    (meth : String) (arg : PyVal) (e : PyErr)
    (hinst : instantiate mod n methods = .ok inst)
    (hsplit : validMethods (remainingMethods mod.params methods) =
      pre ++ (meth, arg) :: post)
    (hpre : ∀ c ∈ pre, checkOk mod inst c = true)
    (herr : checkEval mod inst (meth, arg) = .error e) :
    run_tests (some mod) mn n methods = .error e := by
  simp only [run_tests, hinst, hsplit]
  exact runChecks_error_spec mod inst mn n meth arg e post pre true [] [] hpre herr

/-- C1 witness: the unknown-member error of the second check escapes the
entry point even though the first check passed. -/
theorem C1_per_check_error_propagates_witness :
    run_tests (some pkgMod) "package" "minion"
      [("is_installed", .bool true), ("bogus", .bool true)] =
      .error (.invalidArgument (unknownMemberMsg pkgMod "bogus")) :=
  C1_per_check_error_propagates pkgMod [] "package" "minion"
    [("is_installed", .bool true), ("bogus", .bool true)]
    [("is_installed", .bool true)] [] "bogus" (.bool true) _ rfl rfl
    (by intro c hc
        rcases List.mem_singleton.mp hc with rfl
        rfl)
    rfl

/-- C6 (code bug in the bare-`True` case): for a parameterized operation,
a bare `False` expectation and an expectation dict lacking `"parameter"`
are both rejected with the module's `InvalidArgumentError` (the spec's
`MissingArgumentError`), and the documented `parameter`/`expected`/`is_`
example passes; but a bare `True` expectation slips through the
`if not method_arg` guard and Python raises an uncaught `TypeError`
(subscripting the boolean) instead of the documented error. -/
theorem C6_parameterized_operation_arguments :
    get_method_result fileMod [] "contains" (.bool true) =
      .error (.typeError "\x27bool\x27 object is not subscriptable") ∧
    run_tests (some fileMod) "file" "/etc/salt/minion" [("contains", .bool true)] =
      .error (.typeError "\x27bool\x27 object is not subscriptable") ∧
    get_method_result fileMod [] "contains" (.bool false) =
      .error (.invalidArgument
        "contains is a method of the <class \x27testinfra.modules.file.File\x27> module. An argument dict is required.") ∧
    get_method_result fileMod [] "contains"
        (.dict [("expected", .bool true), ("comparison", .str "is_")]) =
      .error (.invalidArgument
        "The argument dict supplied has no key named \"parameter\": \x7b\x27expected\x27: True, \x27comparison\x27: \x27is_\x27\x7d") ∧
    run_tests (some fileMod) "file" "/etc/salt/minion"
        [("contains", .dict [("parameter", .str "master"),
          ("expected", .bool true), ("comparison", .str "is_")])] =
      .ok (true,
        ["Assertion passed:  file /etc/salt/minion contains \x7b\x27parameter\x27: \x27master\x27, \x27expected\x27: True, \x27comparison\x27: \x27is_\x27\x7d. Actual result: True"],
        []) :=
  ⟨rfl, rfl, rfl, rfl, rfl⟩

/-- C7: member resolution looks the name up on the module class first; only
when the class lookup fails does it consult the instance; and when both fail
it raises `InvalidArgumentError` whose message names the module and the
member. -/
theorem C7_member_resolution_order (mod : TIModule) (inst : Instance)
    (meth : String) :
    (∀ a, lookupAttr mod.attrs meth = some a → methodObj mod inst meth = .ok a) ∧
    (lookupAttr mod.attrs meth = Option.none →
      ∀ a, lookupAttr inst meth = some a → methodObj mod inst meth = .ok a) ∧
    (lookupAttr mod.attrs meth = Option.none → lookupAttr inst meth = Option.none →
      methodObj mod inst meth =
        .error (.invalidArgument
          ("The " ++ mod.reprName ++
            " module does not have any property or method named " ++ meth))) := by
  refine ⟨?_, ?_, ?_⟩
  · intro a h
    simp [methodObj, h]
  · intro h a h2
    simp [methodObj, instanceGetattr, h, h2]
  · intro h h2
    simp [methodObj, instanceGetattr, unknownMemberMsg, h, h2]

/-- C7 witness: the class property wins over the shadowing instance
attribute; a pure instance attribute is found when the class lacks the name;
a name absent from both yields the error naming module and member. -/
theorem C7_member_resolution_order_witness :
    methodObj shadowMod shadowInst "is_listening" = .ok (.propObj (.bool true)) ∧
    methodObj shadowMod shadowInst "backlog" = .ok (.plainVal (.int 128)) ∧
    methodObj shadowMod shadowInst "bogus" =
      .error (.invalidArgument
        ("The " ++ shadowMod.reprName ++
          " module does not have any property or method named " ++ "bogus")) :=
  ⟨(C7_member_resolution_order shadowMod shadowInst "is_listening").1 _ rfl,
   (C7_member_resolution_order shadowMod shadowInst "backlog").2.1 rfl _ rfl,
   (C7_member_resolution_order shadowMod shadowInst "bogus").2.2 rfl rfl⟩

/-- C8 counterexample: constructor-argument binding runs before the
reserved-prefix filter, so a declared check named `_x` that matches a
constructor parameter named `_x` is consumed into the constructor arguments,
contradicting "never appear in constructor-argument binding". -/
theorem C8_counterexample :
    additionalArgs ["name", "_x"] [("_x", PyVal.bool true)] =
      [("_x", PyVal.bool true)] := rfl

/-- C8 (amended): declared check names beginning with `_` are excluded from
evaluation and never appear in the pass/fail result messages (every message
comes from a check whose name does not start with `_`); however, because
binding precedes the filter, such a name is still consumed into
constructor-argument binding when it matches a constructor parameter. -/
theorem C8_reserved_prefix_filter :
    (∀ (params : List String) (methods : List (String × PyVal))
        (c : String × PyVal),
        c ∈ validMethods (remainingMethods params methods) →
        startsWithUnderscore c.fst = false) ∧
    (∀ (mod : TIModule) (inst : Instance) (mn n : String)
        (methods : List (String × PyVal)) (s : Bool) (ps fs : List String),
        instantiate mod n methods = .ok inst →
        run_tests (some mod) mn n methods = .ok (s, ps, fs) →
        ∀ m ∈ ps ++ fs, ∃ c,
          c ∈ validMethods (remainingMethods mod.params methods) ∧
          startsWithUnderscore c.fst = false ∧
          (m = passMsgOf mod inst mn n c ∨ m = failMsgOf mod inst mn n c)) := by
  have hmem : ∀ (params : List String) (methods : List (String × PyVal))
      (c : String × PyVal),
      c ∈ validMethods (remainingMethods params methods) →
      startsWithUnderscore c.fst = false := by
    intro params methods c hc
    have := (List.mem_filter.mp hc).2
    simpa using this
  refine ⟨hmem, ?_⟩
  intro mod inst mn n methods s ps fs hinst hrun m hm
  simp only [run_tests, hinst] at hrun
  obtain ⟨_, _, hps, hfs⟩ :=
    runChecks_ok_spec mod inst mn n _ true [] [] s ps fs hrun
  rcases List.mem_append.mp hm with hmp | hmf
  · rw [hps] at hmp
    simp only [List.nil_append] at hmp
    obtain ⟨c, hcf, hcm⟩ := List.mem_map.mp hmp
    exact ⟨c, List.mem_of_mem_filter hcf,
      hmem mod.params methods c (List.mem_of_mem_filter hcf), Or.inl hcm.symm⟩
  · rw [hfs] at hmf
    simp only [List.nil_append] at hmf
    obtain ⟨c, hcf, hcm⟩ := List.mem_map.mp hmf
    exact ⟨c, List.mem_of_mem_filter hcf,
      hmem mod.params methods c (List.mem_of_mem_filter hcf), Or.inr hcm.symm⟩

/-- C8 witness: with checks `is_installed` and `_private`, the reserved
check is filtered out and the single produced message comes from the
non-reserved check. -/
theorem C8_reserved_prefix_filter_witness :
    startsWithUnderscore
      (("is_installed", PyVal.bool true) :
        String × PyVal).fst = false ∧
    (∃ c, c ∈ validMethods (remainingMethods pkgMod.params
          [("is_installed", PyVal.bool true), ("_private", PyVal.int 7)]) ∧
        startsWithUnderscore c.fst = false ∧
        ("Assertion passed:  package python is_installed True. Actual result: True" =
            passMsgOf pkgMod [] "package" "python" c ∨
          "Assertion passed:  package python is_installed True. Actual result: True" =
            failMsgOf pkgMod [] "package" "python" c)) :=
  ⟨C8_reserved_prefix_filter.1 pkgMod.params
      [("is_installed", PyVal.bool true), ("_private", PyVal.int 7)]
      ("is_installed", PyVal.bool true) (List.mem_singleton.mpr rfl),
   C8_reserved_prefix_filter.2 pkgMod [] "package" "python"
      [("is_installed", PyVal.bool true), ("_private", PyVal.int 7)]
      true ["Assertion passed:  package python is_installed True. Actual result: True"] []
      rfl rfl _ (List.mem_append.mpr (Or.inl (List.mem_singleton.mpr rfl)))⟩

/-- C9: when an invocation reaches aggregation (module resolved, instance
constructed, check loop returned a report), the success flag is the
conjunction of the passed flags of all evaluated checks, the pass and fail
message lists are exactly one message per evaluated check in declaration
order (pass list for passing checks, fail list for failing checks), and zero
evaluated checks yield `(true, [], [])`. -/
theorem C9_aggregation (mod : TIModule) (inst : Instance) (mn n : String)
    (methods : List (String × PyVal)) (s : Bool) (ps fs : List String)
    (hinst : instantiate mod n methods = .ok inst)
    (hrun : run_tests (some mod) mn n methods = .ok (s, ps, fs)) :
    s = (validMethods (remainingMethods mod.params methods)).all
        (checkPassed mod inst) ∧
    ps = ((validMethods (remainingMethods mod.params methods)).filter
        (checkPassed mod inst)).map (passMsgOf mod inst mn n) ∧
    fs = ((validMethods (remainingMethods mod.params methods)).filter
        fun c => !checkPassed mod inst c).map (failMsgOf mod inst mn n) ∧
    ps.length + fs.length =
      (validMethods (remainingMethods mod.params methods)).length ∧
    (validMethods (remainingMethods mod.params methods) = [] →
      s = true ∧ ps = [] ∧ fs = []) := by
  simp only [run_tests, hinst] at hrun
  obtain ⟨hok, hs, hps, hfs⟩ :=
    runChecks_ok_spec mod inst mn n _ true [] [] s ps fs hrun
  simp only [Bool.true_and] at hs
  simp only [List.nil_append] at hps hfs
  refine ⟨hs, hps, hfs, ?_, ?_⟩
  · rw [hps, hfs]
    simp only [List.length_map]
    exact lengthFilterSplit _ _
  · intro hnil
    rw [hnil] at hs hps hfs
    simp at hs hps hfs
    exact ⟨hs, hps, hfs⟩

/-- C9 witness: one passing and one failing check produce
`success = false`, one pass message and one fail message. -/
theorem C9_aggregation_witness :
    false = (validMethods (remainingMethods pkgMod.params
        [("is_installed", PyVal.bool true),
         ("version", PyVal.dict [("expected", PyVal.str "3.0.0"),
           ("comparison", PyVal.str "eq")])])).all (checkPassed pkgMod []) ∧
    ["Assertion passed:  package python is_installed True. Actual result: True"] =
      ((validMethods (remainingMethods pkgMod.params
        [("is_installed", PyVal.bool true),
         ("version", PyVal.dict [("expected", PyVal.str "3.0.0"),
           ("comparison", PyVal.str "eq")])])).filter
        (checkPassed pkgMod [])).map (passMsgOf pkgMod [] "package" "python") ∧
    ["Assertion failed: package python version \x7b\x27expected\x27: \x273.0.0\x27, \x27comparison\x27: \x27eq\x27\x7d. Actual result: 2.7.9-1"] =
      ((validMethods (remainingMethods pkgMod.params
        [("is_installed", PyVal.bool true),
         ("version", PyVal.dict [("expected", PyVal.str "3.0.0"),
           ("comparison", PyVal.str "eq")])])).filter
        fun c => !checkPassed pkgMod [] c).map (failMsgOf pkgMod [] "package" "python") ∧
    (["Assertion passed:  package python is_installed True. Actual result: True"].length +
      ["Assertion failed: package python version \x7b\x27expected\x27: \x273.0.0\x27, \x27comparison\x27: \x27eq\x27\x7d. Actual result: 2.7.9-1"].length =
      (validMethods (remainingMethods pkgMod.params
        [("is_installed", PyVal.bool true),
         ("version", PyVal.dict [("expected", PyVal.str "3.0.0"),
           ("comparison", PyVal.str "eq")])])).length) ∧
    (validMethods (remainingMethods pkgMod.params
        [("is_installed", PyVal.bool true),
         ("version", PyVal.dict [("expected", PyVal.str "3.0.0"),
           ("comparison", PyVal.str "eq")])]) = [] →
      false = true ∧
      ["Assertion passed:  package python is_installed True. Actual result: True"] = [] ∧
      ["Assertion failed: package python version \x7b\x27expected\x27: \x273.0.0\x27, \x27comparison\x27: \x27eq\x27\x7d. Actual result: 2.7.9-1"] = []) :=
  C9_aggregation pkgMod [] "package" "python"
    [("is_installed", PyVal.bool true),
     ("version", PyVal.dict [("expected", PyVal.str "3.0.0"),
       ("comparison", PyVal.str "eq")])]
    false
    ["Assertion passed:  package python is_installed True. Actual result: True"]
    ["Assertion failed: package python version \x7b\x27expected\x27: \x273.0.0\x27, \x27comparison\x27: \x27eq\x27\x7d. Actual result: 2.7.9-1"]
    rfl rfl

/-- C10: a structured expectation whose comparison name resolves to a valid
comparator but which lacks the `expected` key raises `KeyError` — a
different error class from `InvalidArgumentError` and never a recorded
check failure — and that `KeyError` escapes the entry point. -/
theorem C10_missing_expected_key (d : List (String × PyVal)) (r : PyVal)
    (s : String) (comp : Comparator)
    (h1 : dictGet d "comparison" = some (.str s))
    (h2 : operatorLookup s = some comp)
    (h3 : dictGet d "expected" = Option.none) :
    apply_assertion (.dict d) r = .error (.keyError "expected") ∧
    (∀ msg, PyErr.keyError "expected" ≠ PyErr.invalidArgument msg) ∧
    (∀ (mod : TIModule) (inst : Instance) (mn n : String)
        (methods rest : List (String × PyVal)) (meth : String) (result : PyVal),
        instantiate mod n methods = .ok inst →
        validMethods (remainingMethods mod.params methods) =
          (meth, .dict d) :: rest →
        get_method_result mod inst meth (.dict d) = .ok result →
        run_tests (some mod) mn n methods = .error (.keyError "expected")) := by
  have hap : ∀ r : PyVal,
      apply_assertion (.dict d) r = .error (.keyError "expected") := by
    intro r
    simp [apply_assertion, h1, h2, h3]
  refine ⟨hap r, ?_, ?_⟩
  · intro msg h
    exact PyErr.noConfusion h
  intro mod inst mn n methods rest meth result hinst hvm hres
  have herr : checkEval mod inst (meth, .dict d) = .error (.keyError "expected") := by
    simp [checkEval, hres, hap]
  simp only [run_tests, hinst, hvm]
  exact runChecks_error_spec mod inst mn n meth (.dict d) _ rest [] true [] []
    (fun c hc => nomatch hc) herr

/-- C10 witness: the dict `{"comparison": "eq"}` raises `KeyError` in the
evaluator and the error escapes `run_tests` past a resolvable member. -/
theorem C10_missing_expected_key_witness :
    apply_assertion (.dict [("comparison", PyVal.str "eq")]) (.str "x") =
      .error (.keyError "expected") ∧
    run_tests (some pkgMod) "package" "python"
      [("version", .dict [("comparison", PyVal.str "eq")])] =
      .error (.keyError "expected") :=
  ⟨(C10_missing_expected_key [("comparison", PyVal.str "eq")] (.str "x") "eq"
      opEq rfl rfl rfl).1,
   (C10_missing_expected_key [("comparison", PyVal.str "eq")] (.str "x") "eq"
      opEq rfl rfl rfl).2.2 pkgMod [] "package" "python"
      [("version", .dict [("comparison", PyVal.str "eq")])] [] "version"
      (.str "2.7.9-1") rfl rfl rfl⟩
